import Mathlib

/-!
Shallow embedding of `CapabilityAgents/Alerts/src/Storage/SQLiteUtils.cpp`.

The helper layer is a set of thin wrappers over the SQLite C API and a
prepared-statement wrapper class (`SQLiteStatement`).  The engine, the
statement wrapper, the filesystem probe (`std::ifstream`) and the string
parsing utility (`stringToInt` from `StringUtils`) are external
collaborators; they are modelled as an abstract environment `Env` of pure
functions.  A C pointer `sqlite3*` is modelled as `Option Nat` (with `none`
for `nullptr`), and an `int*` output parameter as `Option Int` (`none` for a
null pointer, `some v` for a pointer whose cell currently holds `v`).

Each operation returns an `OpResult`: its C return value, the list of calls
it issued into the engine / statement wrapper (in order), and the list of
`ACSDK_ERROR` log entries it emitted (in order).  A log entry mirrors the
`LX(event).m(message).d(key, value)...` builder of the source: the event
string, the optional `.m` message, and the ordered `.d` key/value pairs.
-/

namespace SQLiteUtils

/-- SQLite result code `SQLITE_OK` (sqlite3.h). -/
def SQLITE_OK : Int := 0

/-- SQLite step result `SQLITE_ROW` (sqlite3.h): a row was produced. -/
def SQLITE_ROW : Int := 100

/-- SQLite step result `SQLITE_DONE` (sqlite3.h): no more rows. -/
def SQLITE_DONE : Int := 101

/-- SQLite open flag `SQLITE_OPEN_READWRITE` (sqlite3.h). -/
def SQLITE_OPEN_READWRITE : Nat := 2

/-- SQLite open flag `SQLITE_OPEN_CREATE` (sqlite3.h). -/
def SQLITE_OPEN_CREATE : Nat := 4

/-- One call issued into the SQLite engine or into the prepared-statement
wrapper (whose constructor prepares the SQL on the given handle). -/
inductive EngineCall where
  | openV2 (filePath : String) (sqliteFlags : Nat)
  | close (dbHandle : Option Nat)
  | exec (dbHandle : Option Nat) (sqlString : String)
  | prepare (dbHandle : Option Nat) (sqlString : String)
  deriving DecidableEq, Repr

/-- One `ACSDK_ERROR` log entry: the `LX(event)` tag, the optional `.m`
message, and the `.d(key, value)` pairs in order. -/
structure LogEvent where
  event : String
  message : Option String
  details : List (String × String)
  deriving DecidableEq, Repr

/-- The observable state of a `SQLiteStatement` wrapper as used by this
file: validity of the preparation, the boolean result of one `step()`, the
engine-level step result code, and the column text extractor. -/
structure Stmt where
  isValid : Bool
  step : Bool
  stepResult : Int
  getColumnText : Nat → String

/-- The external collaborators: the filesystem probe, the SQLite engine
entry points, the statement-wrapper constructor, and `stringToInt`.
`sqlite3_open_v2` returns the handle it wrote through its out-parameter
together with its result code. -/
structure Env where
  fileExists : String → Bool
  sqlite3_open_v2 : String → Nat → Option Nat × Int
  sqlite3_errmsg : Option Nat → String
  sqlite3_close : Option Nat → Int
  sqlite3_exec : Option Nat → String → Int
  prepare : Option Nat → String → Stmt
  stringToInt : String → Option Int

/-- Result of one helper operation: the C return value, the engine /
wrapper calls issued (in order), and the log entries emitted (in order). -/
structure OpResult (α : Type) where
  val : α
  calls : List EngineCall
  logs : List LogEvent
  deriving DecidableEq, Repr

/-- Shorthand for a log entry with only an event tag and a `.m` message. -/
def mLog (event message : String) : LogEvent :=
  { event := event, message := some message, details := [] }

/-- Embeds `openSQLiteDatabaseHelper` (SQLiteUtils.cpp lines 79-99): call
`sqlite3_open_v2`; on a non-OK result code, log (with rcode, file path and
engine error message), close the partially-created handle and return null;
otherwise return the handle. -/
def openSQLiteDatabaseHelper (env : Env) (filePath : String) (sqliteFlags : Nat) :
    OpResult (Option Nat) :=
  let r := env.sqlite3_open_v2 filePath sqliteFlags
  let dbHandle := r.fst
  let rcode := r.snd
  if rcode ≠ SQLITE_OK then
    { val := none,
      calls := [EngineCall.openV2 filePath sqliteFlags, EngineCall.close dbHandle],
      logs := [{ event := "openSQLiteDatabaseHelperFailed",
                 message := some "Could not open database.",
                 details := [("rcode", toString rcode), ("file path", filePath),
                             ("error message", env.sqlite3_errmsg dbHandle)] }] }
  else
    { val := dbHandle, calls := [EngineCall.openV2 filePath sqliteFlags], logs := [] }

/-- Embeds `createSQLiteDatabase` (lines 101-115): if a file exists at the
path, log and return null without touching the engine; otherwise delegate to
the helper with flags `SQLITE_OPEN_READWRITE | SQLITE_OPEN_CREATE`, logging
an extra message if the helper returned null. -/
def createSQLiteDatabase (env : Env) (filePath : String) : OpResult (Option Nat) :=
  if env.fileExists filePath then
    { val := none, calls := [],
      logs := [{ event := "createSQLiteDatabaseFailed",
                 message := some "File already exists.",
                 details := [("file", filePath)] }] }
  else
    let flags := SQLITE_OPEN_READWRITE ||| SQLITE_OPEN_CREATE
    let r := openSQLiteDatabaseHelper env filePath flags
    { val := r.val, calls := r.calls,
      logs := r.logs ++
        (if r.val.isNone then
          [mLog "createSQLiteDatabaseFailed" "Could not create database."]
        else []) }

/-- Embeds `openSQLiteDatabase` (lines 117-131): if no file exists at the
path, log and return null without touching the engine; otherwise delegate to
the helper with flags `SQLITE_OPEN_READWRITE`, logging an extra message if
the helper returned null. -/
def openSQLiteDatabase (env : Env) (filePath : String) : OpResult (Option Nat) :=
  if ¬ env.fileExists filePath then
    { val := none, calls := [],
      logs := [{ event := "openSQLiteDatabaseFailed",
                 message := some "File could not be found.",
                 details := [("file", filePath)] }] }
  else
    let flags := SQLITE_OPEN_READWRITE
    let r := openSQLiteDatabaseHelper env filePath flags
    { val := r.val, calls := r.calls,
      logs := r.logs ++
        (if r.val.isNone then
          [mLog "openSQLiteDatabaseFailed" "Could not open database."]
        else []) }

/-- Embeds `closeSQLiteDatabase` (lines 133-148): a null handle is logged
but does NOT cause an early return; `sqlite3_close` is always called on the
(possibly null) handle and the boolean result is determined solely by its
result code. -/
def closeSQLiteDatabase (env : Env) (dbHandle : Option Nat) : OpResult Bool :=
  let nullLogs :=
    if dbHandle.isNone then
      [mLog "closeSQLiteDatabaseFailed" "dbHandle is nullptr."]
    else []
  let rcode := env.sqlite3_close dbHandle
  if rcode ≠ SQLITE_OK then
    { val := false, calls := [EngineCall.close dbHandle],
      logs := nullLogs ++
        [{ event := "closeSQLiteDatabaseFailed", message := none,
           details := [("rcode", toString rcode),
                       ("error message", env.sqlite3_errmsg dbHandle)] }] }
  else
    { val := true, calls := [EngineCall.close dbHandle], logs := nullLogs }

/-- Embeds `performQuery` (lines 150-172): fail fast on a null handle with
no engine call; otherwise run `sqlite3_exec` and succeed exactly when it
returns `SQLITE_OK`, logging the rcode, error message and SQL text
otherwise. -/
def performQuery (env : Env) (dbHandle : Option Nat) (sqlString : String) : OpResult Bool :=
  if dbHandle.isNone then
    { val := false, calls := [],
      logs := [mLog "performQueryFailed" "dbHandle was nullptr."] }
  else
    let rcode := env.sqlite3_exec dbHandle sqlString
    if rcode ≠ SQLITE_OK then
      { val := false, calls := [EngineCall.exec dbHandle sqlString],
        logs := [{ event := "performQueryFailed",
                   message := some ("Could not execute SQL:" ++ sqlString),
                   details := [("rcode", toString rcode),
                               ("error message", env.sqlite3_errmsg dbHandle)] }] }
    else
      { val := true, calls := [EngineCall.exec dbHandle sqlString], logs := [] }

/-- Embeds `getNumberTableRows` (lines 174-207): fail fast on a null handle
or a null output pointer (both log the same copy-pasted message); build
`SELECT COUNT(*) FROM <tableName>;`, construct the statement wrapper on it,
require validity and one successful step, then parse column 0's text as an
integer into the output. -/
def getNumberTableRows (env : Env) (dbHandle : Option Nat) (tableName : String)
    (numberRows : Option Int) : OpResult (Bool × Option Int) :=
  if dbHandle.isNone then
    { val := (false, numberRows), calls := [],
      logs := [mLog "getNumberTableRowsFailed" "dbHandle was nullptr."] }
  else if numberRows.isNone then
    { val := (false, numberRows), calls := [],
      logs := [mLog "getNumberTableRowsFailed" "dbHandle was nullptr."] }
  else
    let sqlString := "SELECT COUNT(*) FROM " ++ tableName ++ ";"
    let statement := env.prepare dbHandle sqlString
    let calls := [EngineCall.prepare dbHandle sqlString]
    if statement.isValid = false then
      { val := (false, numberRows), calls := calls,
        logs := [mLog "getNumberTableRowsFailed" "Could not create statement."] }
    else if statement.step = false then
      { val := (false, numberRows), calls := calls,
        logs := [mLog "getNumberTableRowsFailed" "Could not step to next row."] }
    else
      let rowValue := statement.getColumnText 0
      match env.stringToInt rowValue with
      | none =>
        { val := (false, numberRows), calls := calls,
          logs := [{ event := "getNumberTableRowsFailed", message := none,
                     details := [("Could not convert string to integer", rowValue)] }] }
      | some n =>
        { val := (true, some n), calls := calls, logs := [] }

/-- The SQL text built by `getTableMaxIntValue` (lines 215-216). -/
def maxIntSql (tableName columnName : String) : String :=
  "SELECT " ++ columnName ++ " FROM " ++ tableName ++
    " ORDER BY " ++ columnName ++ " DESC LIMIT 1;"

/-- Embeds `getTableMaxIntValue` (lines 209-254): fail fast on a null OUTPUT
pointer only (the log message "dbHandle was nullptr." notwithstanding, the
check at line 210 is on `maxId`; the possibly-null `dbHandle` is passed to
the statement wrapper).  Build the max query, require wrapper validity and
one successful step; a step result other than `SQLITE_ROW`/`SQLITE_DONE`
fails; `SQLITE_DONE` writes 0 and succeeds; `SQLITE_ROW` parses column 0's
text as an integer, failing if the parse fails. -/
def getTableMaxIntValue (env : Env) (dbHandle : Option Nat)
    (tableName columnName : String) (maxId : Option Int) :
    OpResult (Bool × Option Int) :=
  if maxId.isNone then
    { val := (false, maxId), calls := [],
      logs := [mLog "getMaxIdFailed" "dbHandle was nullptr."] }
  else
    let sqlString := maxIntSql tableName columnName
    let statement := env.prepare dbHandle sqlString
    let calls := [EngineCall.prepare dbHandle sqlString]
    if statement.isValid = false then
      { val := (false, maxId), calls := calls,
        logs := [mLog "getTableMaxIntValueFailed" "Could not create statement."] }
    else if statement.step = false then
      { val := (false, maxId), calls := calls,
        logs := [mLog "getTableMaxIntValueFailed" "Could not step to next row."] }
    else
      let stepResult := statement.stepResult
      if stepResult ≠ SQLITE_ROW ∧ stepResult ≠ SQLITE_DONE then
        { val := (false, maxId), calls := calls,
          logs := [mLog "getTableMaxIntValueFailed"
                     "Step did not evaluate to either row or completion."] }
      else
        let afterDone : Option Int := if stepResult = SQLITE_DONE then some 0 else maxId
        if stepResult = SQLITE_ROW then
          let rowValue := statement.getColumnText 0
          match env.stringToInt rowValue with
          | none =>
            { val := (false, afterDone), calls := calls,
              logs := [{ event := "getTableMaxIntValueFailed", message := none,
                         details := [("Could not convert string to integer", rowValue)] }] }
          | some n =>
            { val := (true, some n), calls := calls, logs := [] }
        else
          { val := (true, afterDone), calls := calls, logs := [] }

/-- Embeds `clearTable` (lines 256-277): fail fast on a null handle; build
`DELETE FROM <tableName>;`, require wrapper validity and one successful
step. -/
def clearTable (env : Env) (dbHandle : Option Nat) (tableName : String) : OpResult Bool :=
  if dbHandle.isNone then
    { val := false, calls := [],
      logs := [mLog "clearTableFailed" "dbHandle was nullptr."] }
  else
    let sqlString := "DELETE FROM " ++ tableName ++ ";"
    let statement := env.prepare dbHandle sqlString
    let calls := [EngineCall.prepare dbHandle sqlString]
    if statement.isValid = false then
      { val := false, calls := calls,
        logs := [mLog "clearTableFailed" "Could not create statement."] }
    else if statement.step = false then
      { val := false, calls := calls,
        logs := [mLog "clearTableFailed" "Could not perform step."] }
    else
      { val := true, calls := calls, logs := [] }

/-- A concrete environment for witnesses: no file exists, the engine always
succeeds, preparation always yields a valid statement whose single step
reports `SQLITE_DONE`, and only the string "7" parses (to 7). -/
def baseEnv : Env :=
  { fileExists := fun _ => false,
    sqlite3_open_v2 := fun _ _ => (some 1, SQLITE_OK),
    sqlite3_errmsg := fun _ => "engine error",
    sqlite3_close := fun _ => SQLITE_OK,
    sqlite3_exec := fun _ _ => SQLITE_OK,
    prepare := fun _ _ =>
      { isValid := true, step := true, stepResult := SQLITE_DONE,
        getColumnText := fun _ => "7" },
    stringToInt := fun s => if s = "7" then some 7 else none }

/-- `baseEnv` with a filesystem where every path exists. -/
def existsEnv : Env :=
  { baseEnv with fileExists := fun _ => true }

/-- `baseEnv` with an engine whose open call always fails with code 14. -/
def failOpenEnv : Env :=
  { baseEnv with sqlite3_open_v2 := fun _ _ => (none, 14) }

/-- `existsEnv` with an engine whose open call always fails with code 14. -/
def failOpenExistsEnv : Env :=
  { existsEnv with sqlite3_open_v2 := fun _ _ => (none, 14) }

/-- `baseEnv` with statements whose step reports `SQLITE_ROW` and whose
first column reads "7". -/
def rowEnv : Env :=
  { baseEnv with
    prepare := fun _ _ =>
      { isValid := true, step := true, stepResult := SQLITE_ROW,
        getColumnText := fun _ => "7" } }

/-! ### Helper lemmas (shared) -/

/-- With a non-null output pointer, `getTableMaxIntValue` always constructs
the statement wrapper on the given (possibly null) handle with the max
query, and issues no other engine call. -/
theorem getTableMaxIntValue_calls_eq (env : Env) (dbHandle : Option Nat)
    (tableName columnName : String) (v : Int) :
    (getTableMaxIntValue env dbHandle tableName columnName (some v)).calls =
      [EngineCall.prepare dbHandle (maxIntSql tableName columnName)] := by
  simp only [getTableMaxIntValue, Option.isNone_some, Bool.false_eq_true, if_false]
  repeat first | rfl | split

/-- With a non-null handle and output pointer, `getNumberTableRows` always
constructs the statement wrapper on the handle with the COUNT query, and
issues no other engine call. -/
theorem getNumberTableRows_calls_eq (env : Env) (h : Nat) (tableName : String)
    (v : Int) :
    (getNumberTableRows env (some h) tableName (some v)).calls =
      [EngineCall.prepare (some h) ("SELECT COUNT(*) FROM " ++ tableName ++ ";")] := by
  simp only [getNumberTableRows, Option.isNone_some, Bool.false_eq_true, if_false]
  repeat first | rfl | split

/-! ### Claim theorems -/

/-- C3: `closeSQLiteDatabase` on a null handle logs an error but does not
return early: the engine close call is still issued on the null handle, and
the boolean result is determined by that call's result code. -/
theorem closeSQLiteDatabase_null_still_closes (env : Env) :
    (closeSQLiteDatabase env none).calls = [EngineCall.close none] ∧
    ((closeSQLiteDatabase env none).val = true ↔ env.sqlite3_close none = SQLITE_OK) ∧
    mLog "closeSQLiteDatabaseFailed" "dbHandle is nullptr." ∈
      (closeSQLiteDatabase env none).logs := by
  by_cases hc : env.sqlite3_close none = SQLITE_OK <;>
    simp [closeSQLiteDatabase, hc]

/-- C4: when a file exists at the path, `createSQLiteDatabase` returns null
and issues no engine call at all (in particular no open call). -/
theorem createSQLiteDatabase_already_exists (env : Env) (p : String)
    (h : env.fileExists p = true) :
    (createSQLiteDatabase env p).val = none ∧
    (createSQLiteDatabase env p).calls = [] := by
  simp [createSQLiteDatabase, h]

/-- Witness for C4 at a concrete environment where the file exists. -/
theorem createSQLiteDatabase_already_exists_witness :
    existsEnv.fileExists "db" = true ∧
    (createSQLiteDatabase existsEnv "db").val = none ∧
    (createSQLiteDatabase existsEnv "db").calls = [] :=
  ⟨rfl, createSQLiteDatabase_already_exists existsEnv "db" rfl⟩

/-- C5: when no file exists at the path, `openSQLiteDatabase` returns null
and issues no engine call at all (in particular no open call). -/
theorem openSQLiteDatabase_not_found (env : Env) (p : String)
    (h : env.fileExists p = false) :
    (openSQLiteDatabase env p).val = none ∧
    (openSQLiteDatabase env p).calls = [] := by
  simp [openSQLiteDatabase, h]

/-- Witness for C5 at a concrete environment where no file exists. -/
theorem openSQLiteDatabase_not_found_witness :
    baseEnv.fileExists "db" = false ∧
    (openSQLiteDatabase baseEnv "db").val = none ∧
    (openSQLiteDatabase baseEnv "db").calls = [] :=
  ⟨rfl, openSQLiteDatabase_not_found baseEnv "db" rfl⟩

/-- C7: `performQuery` on a null handle fails and issues no engine call;
on a non-null handle it issues exactly one exec call and succeeds exactly
when that call returns `SQLITE_OK`. -/
theorem performQuery_contract (env : Env) (h : Nat) (s : String) :
    (performQuery env none s).val = false ∧
    (performQuery env none s).calls = [] ∧
    ((performQuery env (some h) s).val = true ↔
      env.sqlite3_exec (some h) s = SQLITE_OK) ∧
    (performQuery env (some h) s).calls = [EngineCall.exec (some h) s] := by
  refine ⟨rfl, rfl, ?_, ?_⟩ <;>
    by_cases hc : env.sqlite3_exec (some h) s = SQLITE_OK <;>
      simp [performQuery, hc]

/-- C10: the result of `closeSQLiteDatabase` is success iff the engine
close returned `SQLITE_OK`, for any handle including null; under an engine
where closing a null handle returns `SQLITE_OK`, closing a null handle
returns true despite logging a null-handle error. -/
theorem closeSQLiteDatabase_result_iff_engine_ok (env : Env) (dbHandle : Option Nat)
    (h : env.sqlite3_close none = SQLITE_OK) :
    ((closeSQLiteDatabase env dbHandle).val = true ↔
      env.sqlite3_close dbHandle = SQLITE_OK) ∧
    (closeSQLiteDatabase env none).val = true ∧
    mLog "closeSQLiteDatabaseFailed" "dbHandle is nullptr." ∈
      (closeSQLiteDatabase env none).logs := by
  refine ⟨?_, ?_, ?_⟩
  · by_cases hc : env.sqlite3_close dbHandle = SQLITE_OK <;>
      simp [closeSQLiteDatabase, hc]
  · simp [closeSQLiteDatabase, h]
  · simp [closeSQLiteDatabase, h]

/-- Witness for C10 at a concrete environment whose close always returns
`SQLITE_OK`. -/
theorem closeSQLiteDatabase_result_iff_engine_ok_witness :
    baseEnv.sqlite3_close none = SQLITE_OK ∧
    (closeSQLiteDatabase baseEnv none).val = true :=
  ⟨rfl, (closeSQLiteDatabase_result_iff_engine_ok baseEnv none rfl).2.1⟩

/-- C1: with a non-null output pointer and a valid statement, the outcome
of `getTableMaxIntValue` after one step is: step failure → failure; step
success with `SQLITE_DONE` → success writing 0; step success with
`SQLITE_ROW` → success with the parsed first column, or failure if the
parse fails; any other step result → failure. -/
theorem getTableMaxIntValue_step_outcomes (env : Env) (dbHandle : Option Nat)
    (tableName columnName : String) (v : Int)
    (hvalid : (env.prepare dbHandle (maxIntSql tableName columnName)).isValid = true) :
    ((env.prepare dbHandle (maxIntSql tableName columnName)).step = false →
      (getTableMaxIntValue env dbHandle tableName columnName (some v)).val.fst = false) ∧
    ((env.prepare dbHandle (maxIntSql tableName columnName)).step = true →
      (env.prepare dbHandle (maxIntSql tableName columnName)).stepResult = SQLITE_DONE →
      (getTableMaxIntValue env dbHandle tableName columnName (some v)).val =
        (true, some 0)) ∧
    ((env.prepare dbHandle (maxIntSql tableName columnName)).step = true →
      (env.prepare dbHandle (maxIntSql tableName columnName)).stepResult = SQLITE_ROW →
      (∀ n : Int,
        env.stringToInt
          ((env.prepare dbHandle (maxIntSql tableName columnName)).getColumnText 0) =
            some n →
        (getTableMaxIntValue env dbHandle tableName columnName (some v)).val =
          (true, some n)) ∧
      (env.stringToInt
          ((env.prepare dbHandle (maxIntSql tableName columnName)).getColumnText 0) =
            none →
        (getTableMaxIntValue env dbHandle tableName columnName (some v)).val.fst =
          false)) ∧
    ((env.prepare dbHandle (maxIntSql tableName columnName)).step = true →
      (env.prepare dbHandle (maxIntSql tableName columnName)).stepResult ≠ SQLITE_ROW →
      (env.prepare dbHandle (maxIntSql tableName columnName)).stepResult ≠ SQLITE_DONE →
      (getTableMaxIntValue env dbHandle tableName columnName (some v)).val.fst =
        false) := by
  refine ⟨fun hstep => ?_, fun hstep hdone => ?_,
    fun hstep hrow => ⟨fun n hn => ?_, fun hn => ?_⟩, fun hstep hnr hnd => ?_⟩
  · simp [getTableMaxIntValue, hvalid, hstep]
  · simp [getTableMaxIntValue, hvalid, hstep, hdone, SQLITE_ROW, SQLITE_DONE]
  · simp [getTableMaxIntValue, hvalid, hstep, hrow, hn, SQLITE_ROW, SQLITE_DONE]
  · simp [getTableMaxIntValue, hvalid, hstep, hrow, hn, SQLITE_ROW, SQLITE_DONE]
  · simp only [SQLITE_ROW] at hnr
    simp only [SQLITE_DONE] at hnd
    simp [getTableMaxIntValue, hvalid, hstep, hnr, hnd, SQLITE_ROW, SQLITE_DONE]

/-- Witness for C1 at a concrete environment whose statement steps to
`SQLITE_DONE` (empty table): success with 0 written. -/
theorem getTableMaxIntValue_step_outcomes_witness :
    (baseEnv.prepare none (maxIntSql "t" "c")).isValid = true ∧
    (getTableMaxIntValue baseEnv none "t" "c" (some 5)).val = (true, some 0) :=
  ⟨rfl, (getTableMaxIntValue_step_outcomes baseEnv none "t" "c" 5 rfl).2.1 rfl rfl⟩

/-- C2 counterexample: `getTableMaxIntValue` with a null connection handle
and a non-null output pointer does NOT return failure and DOES pass the
null handle to the statement wrapper (here in an environment whose
statement is valid and steps to `SQLITE_DONE`, it even succeeds). -/
theorem getTableMaxIntValue_null_handle_counterexample :
    (getTableMaxIntValue baseEnv none "t" "c" (some 3)).val.fst = true ∧
    (getTableMaxIntValue baseEnv none "t" "c" (some 3)).calls =
      [EngineCall.prepare none (maxIntSql "t" "c")] := by
  exact ⟨rfl, rfl⟩

/-- C2 (amended): `performQuery`, `getNumberTableRows` and `clearTable`
reject a null connection handle, returning failure without issuing any
engine or statement-wrapper call; `getTableMaxIntValue`, by contrast, only
rejects a null output pointer and passes a null connection handle on to the
statement wrapper. -/
theorem null_handle_rejection_amended (env : Env) (s tableName columnName : String)
    (q v : Int) :
    (performQuery env none s).val = false ∧
    (performQuery env none s).calls = [] ∧
    (getNumberTableRows env none tableName (some q)).val.fst = false ∧
    (getNumberTableRows env none tableName (some q)).calls = [] ∧
    (clearTable env none tableName).val = false ∧
    (clearTable env none tableName).calls = [] ∧
    (getTableMaxIntValue env none tableName columnName (some v)).calls =
      [EngineCall.prepare none (maxIntSql tableName columnName)] ∧
    (getTableMaxIntValue env none tableName columnName none).val.fst = false ∧
    (getTableMaxIntValue env none tableName columnName none).calls = [] :=
  ⟨rfl, rfl, rfl, rfl, rfl, rfl,
    getTableMaxIntValue_calls_eq env none tableName columnName v, rfl, rfl⟩

/-- C6: `getNumberTableRows` fails immediately (no engine call) on a null
handle or null output pointer; otherwise it prepares exactly
`"SELECT COUNT(*) FROM " ++ tableName ++ ";"`, requires the wrapper to be
valid and to advance one step, then parses column 0's text into the output;
each of the prepare / step / parse failure stages returns failure with its
own log entry, and the three stages' log entries are pairwise distinct. -/
theorem getNumberTableRows_contract (env : Env) (h : Nat) (tableName : String)
    (q v : Int) :
    (getNumberTableRows env none tableName (some q)).val.fst = false ∧
    (getNumberTableRows env none tableName (some q)).calls = [] ∧
    (getNumberTableRows env (some h) tableName none).val.fst = false ∧
    (getNumberTableRows env (some h) tableName none).calls = [] ∧
    (getNumberTableRows env (some h) tableName (some v)).calls =
      [EngineCall.prepare (some h) ("SELECT COUNT(*) FROM " ++ tableName ++ ";")] ∧
    ((env.prepare (some h) ("SELECT COUNT(*) FROM " ++ tableName ++ ";")).isValid = false →
      (getNumberTableRows env (some h) tableName (some v)).val.fst = false ∧
      (getNumberTableRows env (some h) tableName (some v)).logs =
        [mLog "getNumberTableRowsFailed" "Could not create statement."]) ∧
    ((env.prepare (some h) ("SELECT COUNT(*) FROM " ++ tableName ++ ";")).isValid = true →
      (env.prepare (some h) ("SELECT COUNT(*) FROM " ++ tableName ++ ";")).step = false →
      (getNumberTableRows env (some h) tableName (some v)).val.fst = false ∧
      (getNumberTableRows env (some h) tableName (some v)).logs =
        [mLog "getNumberTableRowsFailed" "Could not step to next row."]) ∧
    ((env.prepare (some h) ("SELECT COUNT(*) FROM " ++ tableName ++ ";")).isValid = true →
      (env.prepare (some h) ("SELECT COUNT(*) FROM " ++ tableName ++ ";")).step = true →
      env.stringToInt
          ((env.prepare (some h) ("SELECT COUNT(*) FROM " ++ tableName ++ ";")).getColumnText 0) =
        none →
      (getNumberTableRows env (some h) tableName (some v)).val.fst = false ∧
      (getNumberTableRows env (some h) tableName (some v)).logs =
        [{ event := "getNumberTableRowsFailed", message := none,
           details := [("Could not convert string to integer",
             (env.prepare (some h) ("SELECT COUNT(*) FROM " ++ tableName ++ ";")).getColumnText 0)] }]) ∧
    ((env.prepare (some h) ("SELECT COUNT(*) FROM " ++ tableName ++ ";")).isValid = true →
      (env.prepare (some h) ("SELECT COUNT(*) FROM " ++ tableName ++ ";")).step = true →
      ∀ n : Int,
        env.stringToInt
            ((env.prepare (some h) ("SELECT COUNT(*) FROM " ++ tableName ++ ";")).getColumnText 0) =
          some n →
        (getNumberTableRows env (some h) tableName (some v)).val = (true, some n)) ∧
    (mLog "getNumberTableRowsFailed" "Could not create statement." ≠
      mLog "getNumberTableRowsFailed" "Could not step to next row.") ∧
    (∀ s : String, mLog "getNumberTableRowsFailed" "Could not create statement." ≠
      { event := "getNumberTableRowsFailed", message := none,
        details := [("Could not convert string to integer", s)] }) ∧
    (∀ s : String, mLog "getNumberTableRowsFailed" "Could not step to next row." ≠
      { event := "getNumberTableRowsFailed", message := none,
        details := [("Could not convert string to integer", s)] }) := by
  refine ⟨rfl, rfl, rfl, rfl, getNumberTableRows_calls_eq env h tableName v,
    fun hbad => ?_, fun hok hstep => ?_, fun hok hstep hparse => ?_,
    fun hok hstep n hn => ?_, ?_, fun s => ?_, fun s => ?_⟩
  · simp [getNumberTableRows, hbad]
  · simp [getNumberTableRows, hok, hstep]
  · simp [getNumberTableRows, hok, hstep, hparse]
  · simp [getNumberTableRows, hok, hstep, hn]
  · simp [mLog]
  · simp [mLog]
  · simp [mLog]

/-- Witness for C6 at a concrete environment: counting succeeds with the
parsed value 7, and the null-handle case fails with no engine call. -/
theorem getNumberTableRows_contract_witness :
    (baseEnv.prepare (some 1) ("SELECT COUNT(*) FROM " ++ "T" ++ ";")).isValid = true ∧
    (getNumberTableRows baseEnv (some 1) "T" (some 0)).val = (true, some 7) := by
  refine ⟨rfl, ?_⟩
  exact (getNumberTableRows_contract baseEnv 1 "T" 0 0).2.2.2.2.2.2.2.2.1
    rfl rfl 7 (by decide)

/-- C8: when the engine open call returns a non-OK code, the helper closes
the partially-created handle, logs the result code and the engine error
message, and returns null; consequently `createSQLiteDatabase` (when no
file exists) and `openSQLiteDatabase` (when the file exists) return null on
engine-level open failure. -/
theorem openHelper_engine_failure (env : Env) (p : String) (fl : Nat)
    (hfl : (env.sqlite3_open_v2 p fl).snd ≠ SQLITE_OK)
    (h6 : (env.sqlite3_open_v2 p (SQLITE_OPEN_READWRITE ||| SQLITE_OPEN_CREATE)).snd ≠
      SQLITE_OK)
    (h2 : (env.sqlite3_open_v2 p SQLITE_OPEN_READWRITE).snd ≠ SQLITE_OK) :
    (openSQLiteDatabaseHelper env p fl).val = none ∧
    (openSQLiteDatabaseHelper env p fl).calls =
      [EngineCall.openV2 p fl, EngineCall.close (env.sqlite3_open_v2 p fl).fst] ∧
    (∃ l ∈ (openSQLiteDatabaseHelper env p fl).logs,
      ("rcode", toString (env.sqlite3_open_v2 p fl).snd) ∈ l.details ∧
      ("error message", env.sqlite3_errmsg (env.sqlite3_open_v2 p fl).fst) ∈ l.details) ∧
    (env.fileExists p = false → (createSQLiteDatabase env p).val = none) ∧
    (env.fileExists p = true → (openSQLiteDatabase env p).val = none) := by
  refine ⟨?_, ?_, ?_, fun hf => ?_, fun hf => ?_⟩
  · simp [openSQLiteDatabaseHelper, hfl]
  · simp [openSQLiteDatabaseHelper, hfl]
  · simp [openSQLiteDatabaseHelper, hfl]
  · simp [createSQLiteDatabase, hf, openSQLiteDatabaseHelper, h6]
  · simp [openSQLiteDatabase, hf, openSQLiteDatabaseHelper, h2]

/-- Witness for C8 at a concrete environment whose open call always fails
with result code 14: the helper returns null, closes the partial handle,
and `createSQLiteDatabase` returns null. -/
theorem openHelper_engine_failure_witness :
    (failOpenEnv.sqlite3_open_v2 "db" 6).snd ≠ SQLITE_OK ∧
    failOpenEnv.fileExists "db" = false ∧
    (openSQLiteDatabaseHelper failOpenEnv "db" 6).val = none ∧
    (createSQLiteDatabase failOpenEnv "db").val = none := by
  refine ⟨by decide, rfl, ?_, ?_⟩
  · exact (openHelper_engine_failure failOpenEnv "db" 6
      (by decide) (by decide) (by decide)).1
  · exact (openHelper_engine_failure failOpenEnv "db" 6
      (by decide) (by decide) (by decide)).2.2.2.1 rfl

/-- C9: whenever `createSQLiteDatabase` reaches the engine it opens with
`SQLITE_OPEN_READWRITE | SQLITE_OPEN_CREATE`, and whenever
`openSQLiteDatabase` reaches the engine it opens with
`SQLITE_OPEN_READWRITE` only; the read-write flags contain no create bit,
so `openSQLiteDatabase` never asks the engine to create a file. -/
theorem create_uses_create_flag_open_does_not (env : Env) (p : String) :
    (env.fileExists p = false →
      (createSQLiteDatabase env p).calls.head? =
        some (EngineCall.openV2 p (SQLITE_OPEN_READWRITE ||| SQLITE_OPEN_CREATE)) ∧
      ∀ path fl, EngineCall.openV2 path fl ∈ (createSQLiteDatabase env p).calls →
        fl = (SQLITE_OPEN_READWRITE ||| SQLITE_OPEN_CREATE)) ∧
    (env.fileExists p = true →
      (openSQLiteDatabase env p).calls.head? =
        some (EngineCall.openV2 p SQLITE_OPEN_READWRITE) ∧
      ∀ path fl, EngineCall.openV2 path fl ∈ (openSQLiteDatabase env p).calls →
        fl = SQLITE_OPEN_READWRITE) ∧
    SQLITE_OPEN_READWRITE &&& SQLITE_OPEN_CREATE = 0 := by
  refine ⟨fun hf => ?_, fun hf => ?_, rfl⟩
  · by_cases hr :
      (env.sqlite3_open_v2 p (SQLITE_OPEN_READWRITE ||| SQLITE_OPEN_CREATE)).snd =
        SQLITE_OK
    · constructor
      · simp [createSQLiteDatabase, hf, openSQLiteDatabaseHelper, hr]
      · intro path fl hmem
        simp [createSQLiteDatabase, hf, openSQLiteDatabaseHelper, hr] at hmem
        exact hmem.2
    · constructor
      · simp [createSQLiteDatabase, hf, openSQLiteDatabaseHelper, hr]
      · intro path fl hmem
        simp [createSQLiteDatabase, hf, openSQLiteDatabaseHelper, hr] at hmem
        exact hmem.2
  · by_cases hr :
      (env.sqlite3_open_v2 p SQLITE_OPEN_READWRITE).snd = SQLITE_OK
    · constructor
      · simp [openSQLiteDatabase, hf, openSQLiteDatabaseHelper, hr]
      · intro path fl hmem
        simp [openSQLiteDatabase, hf, openSQLiteDatabaseHelper, hr] at hmem
        exact hmem.2
    · constructor
      · simp [openSQLiteDatabase, hf, openSQLiteDatabaseHelper, hr]
      · intro path fl hmem
        simp [openSQLiteDatabase, hf, openSQLiteDatabaseHelper, hr] at hmem
        exact hmem.2

/-- Witness for C9 at concrete environments: creation opens with the
read-write+create flags, plain opening with read-write only. -/
theorem create_uses_create_flag_open_does_not_witness :
    baseEnv.fileExists "db" = false ∧
    (createSQLiteDatabase baseEnv "db").calls.head? =
      some (EngineCall.openV2 "db" (SQLITE_OPEN_READWRITE ||| SQLITE_OPEN_CREATE)) ∧
    existsEnv.fileExists "db" = true ∧
    (openSQLiteDatabase existsEnv "db").calls.head? =
      some (EngineCall.openV2 "db" SQLITE_OPEN_READWRITE) :=
  ⟨rfl, ((create_uses_create_flag_open_does_not baseEnv "db").1 rfl).1, rfl,
    ((create_uses_create_flag_open_does_not existsEnv "db").2.1 rfl).1⟩

/-- Witness for C3 at a concrete environment. -/
theorem closeSQLiteDatabase_null_still_closes_witness :
    (closeSQLiteDatabase baseEnv none).calls = [EngineCall.close none] :=
  (closeSQLiteDatabase_null_still_closes baseEnv).1

/-- Witness for C7 at a concrete environment whose exec always succeeds. -/
theorem performQuery_contract_witness :
    (performQuery baseEnv none "DROP TABLE T;").val = false ∧
    (performQuery baseEnv (some 1) "DROP TABLE T;").val = true := by
  refine ⟨(performQuery_contract baseEnv 1 "DROP TABLE T;").1, ?_⟩
  exact (performQuery_contract baseEnv 1 "DROP TABLE T;").2.2.1.mpr rfl

/-- Witness for the amended C2 at a concrete environment. -/
theorem null_handle_rejection_amended_witness :
    (performQuery baseEnv none "SQL").val = false ∧
    (getTableMaxIntValue baseEnv none "t" "c" (some 0)).calls =
      [EngineCall.prepare none (maxIntSql "t" "c")] :=
  ⟨(null_handle_rejection_amended baseEnv "SQL" "t" "c" 0 0).1,
    (null_handle_rejection_amended baseEnv "SQL" "t" "c" 0 0).2.2.2.2.2.2.1⟩

end SQLiteUtils
